import Mathlib

set_option maxRecDepth 4000

/-!
Shallow embedding of the intent-routing and tool-dispatch logic of the
repository (weinick/strands-sdk-agent-tester), together with theorems that
check the specification's claims about it.

Embedded source files:
  * `src/basic_agent/agent_with_tools.py` (CalculatorTool, WebSearchTool,
    WeatherTool, FileOperationsTool, AgentWithTools),
  * `src/basic_agent/simple_agent.py` (SimpleAgent),
  * `src/advanced_agent/multi_agent_system.py` (MultiAgentSystem).

Modelling conventions:
  * Python strings are Lean `String`s; `str.lower`, `str.strip`, `str.split`,
    `str.replace`, substring tests (`x in y`) are modelled by the executable
    functions in namespace `Py` below (ASCII-exact; all phrases the dispatch
    logic compares against are ASCII).
  * Python numbers inside the calculator are modelled exactly as fractions
    (`PyVal`), with Python's int/float distinction carried as a flag; the
    source's IEEE-754 doubles agree with this model on every integer-valued
    computation (all concrete inputs used in the claims).  The rendering of
    non-terminating float values is a decimal approximation of Python's
    shortest-roundtrip `repr` and is exercised by no claim.
  * The filesystem and the Bedrock completion service are external
    collaborators: the filesystem is a passed-in `FS` value, the Bedrock
    client an optional total function (the source's `_call_bedrock` catches
    every exception and returns a string, so totality is faithful).
  * Python exceptions are modelled with `Except`: a method body that can
    raise is a `Except String _` value, and the `try/except` in `chat`
    converts a thrown message `e` into the returned error string.
-/

namespace Py

/-- ASCII lower-casing of one character, modelling Python `str.lower` on the
ASCII alphabet (every phrase the source compares against is ASCII). -/
def lowerChar (c : Char) : Char :=
  if 'A' ≤ c ∧ c ≤ 'Z' then Char.ofNat (c.toNat + 32) else c

/-- ASCII upper-casing of one character. -/
def upperChar (c : Char) : Char :=
  if 'a' ≤ c ∧ c ≤ 'z' then Char.ofNat (c.toNat - 32) else c

/-- Model of Python `str.lower()`. -/
def lower (s : String) : String := ⟨s.data.map lowerChar⟩

/-- Whether `c` is an ASCII letter. -/
def isAsciiAlpha (c : Char) : Bool :=
  ('a' ≤ c && c ≤ 'z') || ('A' ≤ c && c ≤ 'Z')

/-- Model of Python `str.title()` on ASCII text: the first letter of every
letter-run is upper-cased, the rest lower-cased. -/
def titleAux : List Char → Bool → List Char
  | [], _ => []
  | c :: cs, prevAlpha =>
      (if isAsciiAlpha c then (if prevAlpha then lowerChar c else upperChar c) else c)
        :: titleAux cs (isAsciiAlpha c)

/-- Model of Python `str.title()`. -/
def title (s : String) : String := ⟨titleAux s.data false⟩

/-- The whitespace characters of Python's `str.strip()` / `str.split()` /
the regex class `\s` (ASCII part: space, tab, newline, carriage return,
vertical tab, form feed). -/
def isSpaceChar (c : Char) : Bool :=
  c = ' ' || c = '\t' || c = '\n' || c = '\u000d' || c = '\u000b' || c = '\u000c'

/-- Whether the list `p` is a leading segment of `l`. -/
def leadsWith : List Char → List Char → Bool
  | [], _ => true
  | _ :: _, [] => false
  | p :: ps, c :: cs => p = c && leadsWith ps cs

/-- Whether `p` occurs contiguously inside `l`. -/
def occursIn (p : List Char) : List Char → Bool
  | [] => leadsWith p []
  | c :: cs => leadsWith p (c :: cs) || occursIn p cs

/-- Model of Python's substring test `sub in hay`. -/
def hasSub (hay sub : String) : Bool := occursIn sub.data hay.data

/-- Model of Python `str.strip()` (no arguments). -/
def strip (s : String) : String :=
  ⟨((s.data.dropWhile isSpaceChar).reverse.dropWhile isSpaceChar).reverse⟩

/-- Helper for `splitWs`: accumulates the current word (reversed). -/
def wordsAux : List Char → List Char → List String
  | [], [] => []
  | [], acc => [⟨acc.reverse⟩]
  | c :: cs, acc =>
      if isSpaceChar c then
        match acc with
        | [] => wordsAux cs []
        | _ => ⟨acc.reverse⟩ :: wordsAux cs []
      else wordsAux cs (c :: acc)

/-- Model of Python `str.split()` with no separator: split on whitespace
runs, dropping empty pieces. -/
def splitWs (s : String) : List String := wordsAux s.data []

/-- Helper for `splitOnStr`, fuelled to stay structurally recursive; the
fuel passed in is an upper bound on the number of characters left. -/
def splitOnAux (sep : List Char) : Nat → List Char → List Char → List String
  | _, [], acc => [⟨acc.reverse⟩]
  | 0, rest, acc => [⟨acc.reverse ++ rest⟩]
  | fuel + 1, c :: cs, acc =>
      if leadsWith sep (c :: cs) then
        ⟨acc.reverse⟩ :: splitOnAux sep fuel (List.drop sep.length (c :: cs)) []
      else splitOnAux sep fuel cs (c :: acc)

/-- Model of Python `str.split(sep)` with a non-empty separator: all pieces
are kept, including empty ones. -/
def splitOnStr (s sep : String) : List String :=
  if sep = "" then [s] else splitOnAux sep.data (s.data.length + 1) s.data []

/-- Helper for `replace`, fuelled to stay structurally recursive. -/
def replaceAux (pat rep : List Char) : Nat → List Char → List Char
  | _, [] => []
  | 0, rest => rest
  | fuel + 1, c :: cs =>
      if leadsWith pat (c :: cs) then
        rep ++ replaceAux pat rep fuel (List.drop pat.length (c :: cs))
      else c :: replaceAux pat rep fuel cs

/-- Model of Python `str.replace(pat, rep)` for a non-empty pattern:
left-to-right, non-overlapping. -/
def replace (s pat rep : String) : String :=
  if pat = "" then s else ⟨replaceAux pat.data rep.data (s.data.length + 1) s.data⟩

/-- Lexicographic (code-point) comparison of two strings, modelling the
order Python's `sorted` uses on strings. -/
def strLe : List Char → List Char → Bool
  | [], _ => true
  | _ :: _, [] => false
  | a :: as, b :: bs => a < b || (a = b && strLe as bs)

/-- Insertion into a sorted list (stable, ascending), for `sortStr`. -/
def insertSorted (x : String) : List String → List String
  | [] => [x]
  | y :: ys => if strLe x.data y.data then x :: y :: ys else y :: insertSorted x ys

/-- Model of Python `sorted` on a list of strings. -/
def sortStr : List String → List String
  | [] => []
  | x :: xs => insertSorted x (sortStr xs)

end Py

/-!
## The calculator tool

`CalculatorTool.calculate` (src/basic_agent/agent_with_tools.py, lines
34-50): a character allow-list guard, then Python `eval` on the expression,
with `ZeroDivisionError` and generic exceptions converted into error
strings.  `eval` restricted to the guard's characters is an arithmetic
expression evaluator; it is modelled by `pyEval` below: lexer, parser to an
AST (Python compiles the whole expression before running it, so syntax
errors precede runtime errors), then left-to-right evaluation.  The
operators reachable through the guard's characters are `+ - * /` plus the
two-character `**` (power) and `//` (floor division), unary `+`/`-`, and
parentheses; numbers are integer or float literals.  Values are exact
fractions with Python's int/float distinction as a flag: `+ - * // **`
on ints are exact in both, `/` and float results are exact here and
IEEE-754 doubles in the source (they agree on all integer-valued results,
which is all any claim evaluates).  A float literal or `/` marks the result
a float.  Non-integer exponents are beyond the fraction model and are
mapped to a generic evaluation error (no claim exercises them).
-/

/-- A Python number as produced by the calculator: the exact value
`num / den` plus whether Python would represent it as a float. -/
structure PyVal where
  num : Int
  den : Int
  isFloat : Bool
deriving DecidableEq, Repr

/-- The runtime errors Python `eval` can raise on guard-approved calculator
input: `ZeroDivisionError`, or anything else (syntax errors, type errors),
carried as a message. -/
inductive PyErr where
  | zeroDiv
  | other (msg : String)
deriving DecidableEq, Repr

/-- Integer literal value. -/
def PyVal.ofInt (n : Int) : PyVal := ⟨n, 1, false⟩

def vneg (a : PyVal) : PyVal := ⟨-a.num, a.den, a.isFloat⟩

def vadd (a b : PyVal) : PyVal :=
  ⟨a.num * b.den + b.num * a.den, a.den * b.den, a.isFloat || b.isFloat⟩

def vsub (a b : PyVal) : PyVal :=
  ⟨a.num * b.den - b.num * a.den, a.den * b.den, a.isFloat || b.isFloat⟩

def vmul (a b : PyVal) : PyVal :=
  ⟨a.num * b.num, a.den * b.den, a.isFloat || b.isFloat⟩

/-- Python `/`: true division, result is a float; zero divisor raises
`ZeroDivisionError`. -/
def vdiv (a b : PyVal) : Except PyErr PyVal :=
  if b.num = 0 then .error .zeroDiv
  else .ok ⟨a.num * b.den, a.den * b.num, true⟩

/-- Python `//`: floor division (floor for every sign combination, as
`Int.fdiv` floors); int `//` int is an int, otherwise a float. -/
def vfloordiv (a b : PyVal) : Except PyErr PyVal :=
  if b.num = 0 then .error .zeroDiv
  else .ok ⟨Int.fdiv (a.num * b.den) (a.den * b.num), 1, a.isFloat || b.isFloat⟩

/-- Python `**` with an integer exponent: exact; a negative exponent gives a
float (and `0 ** negative` raises `ZeroDivisionError`).  A non-integer
exponent is beyond the fraction model and becomes a generic error. -/
def vpow (a b : PyVal) : Except PyErr PyVal :=
  if b.isFloat || b.den ≠ 1 then .error (.other "non-integer exponent not modelled")
  else if 0 ≤ b.num then .ok ⟨a.num ^ b.num.toNat, a.den ^ b.num.toNat, a.isFloat⟩
  else if a.num = 0 then .error .zeroDiv
  else .ok ⟨a.den ^ (-b.num).toNat, a.num ^ (-b.num).toNat, true⟩

/-- Calculator tokens. -/
inductive Tok where
  | num (v : PyVal)
  | plus | minus | star | slash | dstar | dslash | lpar | rpar
deriving DecidableEq, Repr

/-- Digits to an integer. -/
def digitsToInt (ds : List Char) : Int :=
  ds.foldl (fun a c => a * 10 + (Int.ofNat (c.toNat - 48))) 0

/-- Lex one numeric literal (`12`, `12.`, `12.5`, `.5`; a bare `.` is a
syntax error) and return the remaining characters. -/
def lexNum (cs : List Char) : Except PyErr (PyVal × List Char) :=
  let ip := cs.takeWhile Char.isDigit
  let rest := cs.drop ip.length
  match rest with
  | '.' :: rest' =>
      let fp := rest'.takeWhile Char.isDigit
      if ip.isEmpty && fp.isEmpty then .error (.other "invalid syntax")
      else .ok (⟨digitsToInt (ip ++ fp), (10 : Int) ^ fp.length, true⟩, rest'.drop fp.length)
  | _ =>
      if ip.isEmpty then .error (.other "invalid syntax")
      else .ok (⟨digitsToInt ip, 1, false⟩, rest)

/-- The calculator lexer (fuelled; the fuel is the character count). -/
def lexAux : Nat → List Char → Except PyErr (List Tok)
  | _, [] => .ok []
  | 0, _ => .error (.other "invalid syntax")
  | fuel + 1, c :: cs =>
      if c = ' ' || c = '\t' then lexAux fuel cs
      else if c = '+' then (lexAux fuel cs).map (Tok.plus :: ·)
      else if c = '-' then (lexAux fuel cs).map (Tok.minus :: ·)
      else if c = '(' then (lexAux fuel cs).map (Tok.lpar :: ·)
      else if c = ')' then (lexAux fuel cs).map (Tok.rpar :: ·)
      else if c = '*' then
        match cs with
        | '*' :: cs' => (lexAux fuel cs').map (Tok.dstar :: ·)
        | _ => (lexAux fuel cs).map (Tok.star :: ·)
      else if c = '/' then
        match cs with
        | '/' :: cs' => (lexAux fuel cs').map (Tok.dslash :: ·)
        | _ => (lexAux fuel cs).map (Tok.slash :: ·)
      else if c.isDigit || c = '.' then
        match lexNum (c :: cs) with
        | .error e => .error e
        | .ok (v, rest) => (lexAux fuel rest).map (Tok.num v :: ·)
      else .error (.other "invalid syntax")

/-- Run the lexer. -/
def lexCalc (s : String) : Except PyErr (List Tok) := lexAux (s.data.length + 1) s.data

/-- Arithmetic ASTs, as Python's compiler would build them. -/
inductive PExpr where
  | lit (v : PyVal)
  | neg (e : PExpr)
  | add (a b : PExpr)
  | sub (a b : PExpr)
  | mul (a b : PExpr)
  | divE (a b : PExpr)
  | fldiv (a b : PExpr)
  | powE (a b : PExpr)
deriving DecidableEq, Repr

/-- Binding power of a binary operator token (`+ -` < `* / //` < `**`),
`none` for non-operators. -/
def opPrec : Tok → Option Nat
  | .plus => some 10
  | .minus => some 10
  | .star => some 20
  | .slash => some 20
  | .dslash => some 20
  | .dstar => some 30
  | _ => none

/-- Binding power required of the right operand: one more for the
left-associative operators; for the right-associative `**` the unary level
(Python's `power ::= primary ["**" u_expr]`). -/
def opRightPrec : Tok → Nat
  | .star => 21
  | .slash => 21
  | .dslash => 21
  | .dstar => 25
  | _ => 11

/-- Build the AST node for a binary operator token. -/
def opNode : Tok → PExpr → PExpr → PExpr
  | .minus, a, b => .sub a b
  | .star, a, b => .mul a b
  | .slash, a, b => .divE a b
  | .dslash, a, b => .fldiv a b
  | .dstar, a, b => .powE a b
  | _, a, b => .add a b

/-- Precedence-climbing parser for Python's arithmetic grammar over the
calculator's tokens: `none` state parses one operand (number, parenthesised
expression, or unary `+`/`-` at Python's unary level 25, which binds looser
than `**`); `some lhs` state folds in binary operators of binding power at
least `minPrec`.  Fuelled on its first argument to be structurally
recursive (the fuel passed by `pyEval` is ample). -/
def parseP : Nat → Nat → Option PExpr → List Tok → Except PyErr (PExpr × List Tok)
  | 0, _, _, _ => .error (.other "invalid syntax")
  | fuel + 1, minPrec, none, ts =>
      match ts with
      | Tok.plus :: ts' => do
          let (e, ts₁) ← parseP fuel 25 none ts'
          parseP fuel minPrec (some e) ts₁
      | Tok.minus :: ts' => do
          let (e, ts₁) ← parseP fuel 25 none ts'
          parseP fuel minPrec (some (.neg e)) ts₁
      | Tok.num v :: ts' => parseP fuel minPrec (some (.lit v)) ts'
      | Tok.lpar :: ts' => do
          let (e, ts₁) ← parseP fuel 0 none ts'
          match ts₁ with
          | Tok.rpar :: ts₂ => parseP fuel minPrec (some e) ts₂
          | _ => .error (.other "invalid syntax")
      | _ => .error (.other "invalid syntax")
  | fuel + 1, minPrec, some lhs, ts =>
      match ts with
      | t :: ts' =>
          match opPrec t with
          | some p =>
              if minPrec ≤ p then do
                let (rhs, ts₁) ← parseP fuel (opRightPrec t) none ts'
                parseP fuel minPrec (some (opNode t lhs rhs)) ts₁
              else .ok (lhs, t :: ts')
          | none => .ok (lhs, t :: ts')
      | [] => .ok (lhs, [])

/-- Parse a whole expression. -/
def parseExpr (fuel : Nat) (ts : List Tok) : Except PyErr (PExpr × List Tok) :=
  parseP fuel 0 none ts

/-- Left-to-right evaluation of the AST, as Python's bytecode evaluates. -/
def evalE : PExpr → Except PyErr PyVal
  | .lit v => .ok v
  | .neg e => (evalE e).map vneg
  | .add a b => do vadd (← evalE a) (← evalE b) |> pure
  | .sub a b => do vsub (← evalE a) (← evalE b) |> pure
  | .mul a b => do vmul (← evalE a) (← evalE b) |> pure
  | .divE a b => do vdiv (← evalE a) (← evalE b)
  | .fldiv a b => do vfloordiv (← evalE a) (← evalE b)
  | .powE a b => do vpow (← evalE a) (← evalE b)

/-- Model of Python `eval` on a guard-approved calculator expression:
lex, parse the whole input, then evaluate. -/
def pyEval (s : String) : Except PyErr PyVal := do
  let toks ← lexCalc s
  let (e, rest) ← parseExpr (5 * toks.length + 10) toks
  match rest with
  | [] => evalE e
  | _ => .error (.other "invalid syntax")

/-- Decimal digits of the fractional part `r / d` (fuelled; stops early when
the expansion terminates).  Used only by `floatRepr`. -/
def fracDigits : Nat → Nat → Nat → List Char
  | 0, _, _ => []
  | _ + 1, _, 0 => []
  | fuel + 1, d, r =>
      let r10 := r * 10
      Char.ofNat (48 + r10 / d) :: fracDigits fuel d (r10 % d)

/-- Rendering of a float value: exact decimal expansion when it terminates
within 17 digits (every value any claim evaluates), else a 17-digit
truncation approximating Python's shortest-roundtrip float `repr`. -/
def floatRepr (v : PyVal) : String :=
  let sgn := if v.num * v.den < 0 then "-" else ""
  let n := v.num.natAbs
  let d := v.den.natAbs
  let ip := n / d
  let r := n % d
  if r = 0 then sgn ++ toString ip ++ ".0"
  else sgn ++ toString ip ++ "." ++ ⟨fracDigits 17 d r⟩

/-- Rendering of a `PyVal` as Python's f-string would (`f"{result}"`):
ints print as decimal integers; floats via `floatRepr`. -/
def renderVal (v : PyVal) : String :=
  if v.isFloat then floatRepr v else toString v.num

namespace CalculatorTool

/-- The guard's allow-list (src/basic_agent/agent_with_tools.py, line 39). -/
def safeChars : List Char := "0123456789+-*/.() ".data

/-- `CalculatorTool.calculate` (src/basic_agent/agent_with_tools.py, lines
34-50): guard, `eval`, and exception handlers in source order. -/
def calculate (expression : String) : String :=
  if expression.data.all (fun c => safeChars.contains c) then
    match pyEval expression with
    | .ok result =>
        "🧮 **Calculation Result:**\n`" ++ expression ++ " = " ++ renderVal result ++ "`"
    | .error .zeroDiv => "❌ Error: Division by zero"
    | .error (.other msg) => "❌ Calculation error: " ++ msg
  else
    "❌ Invalid characters in expression. Only numbers and basic operators (+, -, *, /, parentheses) are allowed."

end CalculatorTool

/-!
## Templates

The literal response templates of the three embedded source files,
extracted verbatim (including trailing spaces and the mojibake characters
that `src/advanced_agent/multi_agent_system.py` literally contains); each
f-string interpolation becomes a parameter.
-/

/-- Template from src/basic_agent/agent_with_tools.py (verbatim). -/
def searchTemplate (query : String) : String :=
  "🔍 **Web Search Results for:** \"" ++ query ++ "\"\n\n**Note:** This is a mock web search tool for demonstration purposes.\n\n**Mock Results:**\n1. **Sample Result 1** - Relevant information about " ++ query ++ "\n   - Source: example.com\n   - Summary: This would contain relevant information...\n\n2. **Sample Result 2** - More details on " ++ query ++ "  \n   - Source: another-site.com\n   - Summary: Additional context and information...\n\n3. **Sample Result 3** - " ++ query ++ " explained\n   - Source: educational-site.org\n   - Summary: Comprehensive explanation...\n\n**To implement real web search:**\n- Integrate with search APIs (Google, Bing, DuckDuckGo)\n- Use web scraping libraries (BeautifulSoup, Scrapy)\n- Add result filtering and ranking\n\n*This tool demonstrates how to integrate external APIs with Strands SDK agents.*"

/-- Template from src/basic_agent/agent_with_tools.py (verbatim). -/
def weatherTemplate (location : String) : String :=
  "🌤\ufe0f **Weather for " ++ location ++ ":**\n\n**Current Conditions:**\n- Temperature: 72\u00b0F (22\u00b0C)\n- Condition: Partly Cloudy\n- Humidity: 65%\n- Wind: 8 mph NW\n- Pressure: 30.15 in\n\n**Today's Forecast:**\n- High: 78\u00b0F (26\u00b0C)\n- Low: 65\u00b0F (18\u00b0C)\n- Chance of Rain: 20%\n\n**Note:** This is mock weather data for demonstration.\n\n**To implement real weather:**\n- Sign up for OpenWeatherMap API\n- Use requests library to fetch data\n- Parse JSON responses\n- Handle API errors gracefully\n\n*Example API integration with Strands SDK agents.*"

/-- Template from src/basic_agent/agent_with_tools.py (verbatim). -/
def awtHello : String :=
  "Hello! I'm an Agent with Tools, powered by the Strands SDK. \n\nI have access to several useful tools:\n🧮 **Calculator** - For mathematical operations\n🔍 **Web Search** - To find information online  \n🌤\ufe0f **Weather** - For weather forecasts\n📁 **File Operations** - To read and list files\n\nTry asking me to:\n\u2022 Calculate something: \"What's 15 * 8?\"\n\u2022 Search for information: \"Search for Python tutorials\"\n\u2022 Check weather: \"What's the weather like?\"\n\u2022 List files: \"Show me the files in this directory\"\n\nHow can I help you today?"

/-- Template from src/basic_agent/agent_with_tools.py (verbatim). -/
def awtCapabilities : String :=
  "I'm an enhanced AI agent with access to multiple tools! Here's what I can do:\n\n🧮 **Calculator Tool:**\n\u2022 Basic math: addition, subtraction, multiplication, division\n\u2022 Advanced functions: square root, power, logarithm, trigonometry\n\u2022 Complex expressions with parentheses\n\n🔍 **Web Search Tool:**\n\u2022 Search for current information\n\u2022 Find articles, tutorials, and resources\n\u2022 Get up-to-date data on various topics\n\n🌤\ufe0f **Weather Tool:**\n\u2022 Current weather conditions\n\u2022 Temperature and humidity\n\u2022 Forecasts and weather alerts\n\n📁 **File Operations Tool:**\n\u2022 List files and directories\n\u2022 Read file contents\n\u2022 Navigate file system\n\n💬 **Conversational AI:**\n\u2022 Natural language understanding\n\u2022 Context-aware responses\n\u2022 Helpful explanations and guidance\n\n**Example Commands:**\n\u2022 \"Calculate 25 * 4 + 10\"\n\u2022 \"Search for machine learning tutorials\"\n\u2022 \"What's the weather in New York?\"\n\u2022 \"List files in the current directory\"\n\u2022 \"Read the README.md file\"\n\nWhat would you like to try?"

/-- Template from src/basic_agent/agent_with_tools.py (verbatim). -/
def awtGoodbye : String :=
  "You're welcome! It was great helping you test the Agent with Tools.\n\nRemember, I have access to:\n🧮 Calculator | 🔍 Web Search | 🌤\ufe0f Weather | 📁 File Operations\n\nFeel free to come back anytime to try out different tools or ask questions. The Strands SDK makes it easy to build powerful agents like me!\n\nGoodbye! 👋"

/-- Template from src/basic_agent/agent_with_tools.py (verbatim). -/
def awtElse (u provider model : String) : String :=
  "I received your message: \"" ++ u ++ "\"\n\nAs an Agent with Tools, I can help you with various tasks using my built-in tools:\n\n🧮 **For calculations:** Try \"calculate 15 + 25\" or \"what's the square root of 64?\"\n🔍 **For information:** Try \"search for [topic]\" or \"find information about [subject]\"\n🌤\ufe0f **For weather:** Try \"what's the weather?\" or \"weather forecast\"\n📁 **For files:** Try \"list files\" or \"read [filename]\"\n\nI also enjoy general conversation! Feel free to ask me questions or chat about topics you're interested in.\n\n**Current Configuration:**\n- Provider: " ++ provider ++ "\n- Model: " ++ model ++ "\n- Available Tools: Calculator, Web Search, Weather, File Operations\n\nWhat would you like to explore?"

/-- Template from src/basic_agent/simple_agent.py (verbatim). -/
def saHello : String :=
  "Hello! I'm a Simple Agent built with the Strands SDK. \n\nI'm designed to have natural conversations and can help you with:\n\u2022 General questions and discussions\n\u2022 Basic information requests  \n\u2022 Casual conversation\n\u2022 Testing the Strands SDK functionality\n\nHow can I assist you today?"

/-- Template from src/basic_agent/simple_agent.py (verbatim). -/
def saHowAreYou : String :=
  "I'm doing well, thank you for asking! \n\nAs a Simple Agent, I'm functioning properly and ready to help. I'm built using the Strands SDK and designed to be a friendly conversational companion.\n\nIs there anything specific you'd like to talk about or any way I can help you?"

/-- Template from src/basic_agent/simple_agent.py (verbatim). -/
def saCapabilities : String :=
  "As a Simple Agent, I have several capabilities:\n\n**Conversational Skills:**\n\u2022 Natural language understanding and generation\n\u2022 Context-aware responses based on our conversation\n\u2022 Friendly and helpful personality\n\n**Technical Features:**\n\u2022 Built with Strands SDK framework\n\u2022 AWS Bedrock integration (when configured)\n\u2022 Conversation history tracking\n\u2022 Error handling and graceful fallbacks\n\n**What I Can Help With:**\n\u2022 Answer questions on various topics\n\u2022 Engage in casual conversation\n\u2022 Provide information and explanations\n\u2022 Test and demonstrate Strands SDK functionality\n\n**Limitations:**\n\u2022 I don't have access to real-time information\n\u2022 I can't perform calculations (try the Agent with Tools for that!)\n\u2022 I can't browse the web or access external APIs\n\nWhat would you like to explore together?"

/-- Template from src/basic_agent/simple_agent.py (verbatim). -/
def saGoodbye : String :=
  "Goodbye! It was great chatting with you. \n\nThank you for testing the Simple Agent. Feel free to come back anytime to continue our conversation or try out the other agents available in the Strands SDK!\n\nHave a wonderful day! 👋"

/-- Template from src/basic_agent/simple_agent.py (verbatim). -/
def saStrands : String :=
  "Great question about the Strands SDK! \n\nThe Strands Agents SDK is Amazon's framework for building AI agents. Here's what makes it special:\n\n**Key Features:**\n\u2022 **Model-agnostic**: Works with AWS Bedrock, OpenAI, Anthropic, and more\n\u2022 **Code-first approach**: Simple Python-based agent development\n\u2022 **Built-in tools**: Pre-built tools for common tasks\n\u2022 **Custom tools**: Easy creation of specialized tools\n\u2022 **Multi-agent systems**: Support for agent collaboration\n\u2022 **Production-ready**: Includes deployment patterns\n\n**Why I'm a good example:**\nI demonstrate the basic conversational capabilities you can build with just a few lines of code using the Strands SDK. More complex agents can include tools, web search, file operations, and much more!\n\nWould you like to know more about any specific aspect?"

/-- Template from src/basic_agent/simple_agent.py (verbatim). -/
def saWeather : String :=
  "I don't have access to real-time weather data, but I can suggest how to get that information!\n\n**For weather information, try:**\n\u2022 The **Web Research Agent** - can search for current weather\n\u2022 The **Agent with Tools** - has weather API capabilities\n\u2022 Or ask me to help you think through weather-related questions\n\nIf you're building a weather-capable agent with Strands SDK, you'd typically integrate with weather APIs like OpenWeatherMap or AWS weather services.\n\nIs there something specific about weather you'd like to discuss?"

/-- Template from src/basic_agent/simple_agent.py (verbatim). -/
def saCalculate : String :=
  "I'm a Simple Agent, so I don't have calculation capabilities built in.\n\n**For mathematical operations, try:**\n\u2022 **Agent with Tools** - has a built-in calculator\n\u2022 **Custom Tool Agent** - can be configured with specialized math tools\n\n**What I can help with instead:**\n\u2022 Explain mathematical concepts\n\u2022 Discuss problem-solving approaches\n\u2022 Help you think through mathematical questions conceptually\n\nIf you're interested in building calculation capabilities into Strands SDK agents, I'd be happy to discuss the architectural approaches!\n\nWhat kind of mathematical help were you looking for?"

/-- Template from src/basic_agent/simple_agent.py (verbatim). -/
def saElse (u provider model temperature : String) : String :=
  "Thank you for your message: \"" ++ u ++ "\"\n\nAs a Simple Agent, I aim to be helpful and conversational. While I may not have specialized tools or real-time data access, I can:\n\n\u2022 Engage in meaningful conversation\n\u2022 Provide general information and explanations  \n\u2022 Help you explore ideas and concepts\n\u2022 Demonstrate basic Strands SDK functionality\n\n**Some things you might try asking me:**\n\u2022 Questions about the Strands SDK\n\u2022 General topics you're curious about\n\u2022 How I work as an AI agent\n\u2022 Casual conversation topics\n\n**For more advanced capabilities, try:**\n\u2022 **Agent with Tools** - for calculations, web search, etc.\n\u2022 **Web Research Agent** - for current information\n\u2022 **File Manager Agent** - for file operations\n\nWhat would you like to explore together?\n\n*Current Configuration:*\n- Provider: " ++ provider ++ "\n- Model: " ++ model ++ "\n- Temperature: " ++ temperature

/-- Template from src/advanced_agent/multi_agent_system.py (verbatim). -/
def masHeaderT (u complexityTitle nAgents agentsJoined ts : String) : String :=
  "\uf8ff\u00fc\u00a7\u00f1 **Multi-Agent System Response**\n\n**Task:** " ++ u ++ "\n**Analysis:** " ++ complexityTitle ++ " task requiring " ++ nAgents ++ " specialist(s)\n**Agents Deployed:** " ++ agentsJoined ++ "\n**Processing Time:** " ++ ts ++ "\n\n---\n\n"

/-- Template from src/advanced_agent/multi_agent_system.py (verbatim). -/
def masMathBlockT (mathResult : String) : String :=
  "\uf8ff\u00fc\u00df\u00c6 **Math Specialist Results:**\n" ++ mathResult ++ "\n\n"

/-- Template from src/advanced_agent/multi_agent_system.py (verbatim). -/
def masTextBlockT (textResult : String) : String :=
  "\uf8ff\u00fc\u00ec\u00e4 **Text Analysis Specialist Results:**\n" ++ textResult ++ "\n\n"

/-- Template from src/advanced_agent/multi_agent_system.py (verbatim). -/
def masFormatBlockT (formatResult : String) : String :=
  "\uf8ff\u00fc\u00ec\u00e3 **Data Formatting Specialist Results:**\n" ++ formatResult ++ "\n\n"

/-- Template from src/advanced_agent/multi_agent_system.py (verbatim). -/
def masSummaryT (nAgents complexityTitle nResults : String) : String :=
  "---\n\n**\uf8ff\u00fc\u00e9\u00d8 Task Summary:**\n\u201a\u00c4\u00a2 **Agents Used:** " ++ nAgents ++ "\n\u201a\u00c4\u00a2 **Complexity Level:** " ++ complexityTitle ++ "\n\u201a\u00c4\u00a2 **Processing Status:** \u201a\u00fa\u00d6 Complete\n\u201a\u00c4\u00a2 **Results Generated:** " ++ nResults ++ " specialist outputs\n\n*This demonstrates multi-agent collaboration where specialized agents work together to solve complex tasks.*"

/-- Template from src/advanced_agent/multi_agent_system.py (verbatim). -/
def masGeneralCoordinationT (u : String) : String :=
  "\uf8ff\u00fc\u00e9\u2260 **General Coordination Response:**\n\nI've analyzed your request: \"" ++ u ++ "\"\n\nAs a multi-agent coordinator, I can deploy specialized agents for:\n\u201a\u00c4\u00a2 **\uf8ff\u00fc\u00df\u00c6 Mathematical Operations** - Calculations, equations, formulas\n\u201a\u00c4\u00a2 **\uf8ff\u00fc\u00ec\u00e4 Text Analysis** - Content analysis, sentiment, readability\n\u201a\u00c4\u00a2 **\uf8ff\u00fc\u00ec\u00e3 Data Formatting** - JSON, tables, structured output\n\u201a\u00c4\u00a2 **\uf8ff\u00fc\u00ee\u00e7 Research Tasks** - Information gathering and synthesis\n\u201a\u00c4\u00a2 **\uf8ff\u00fc\u00ec\u00c5 File Operations** - Document management and processing\n\nTo get the most from the multi-agent system, try requests like:\n- \"Calculate the compound interest and format the results\"\n- \"Analyze this text and present findings in a table\"\n- \"Research Python libraries and create a comparison\"\n\n*Provide more specific instructions to activate specialized agents.*"

/-!
## The mock web search and weather tools
-/

namespace WebSearchTool

/-- `WebSearchTool.search` (src/basic_agent/agent_with_tools.py, lines
97-122): returns the mock search template. -/
def search (query : String) : String := searchTemplate query

end WebSearchTool

namespace WeatherTool

/-- `WeatherTool.get_weather` (src/basic_agent/agent_with_tools.py, lines
127-153): returns the mock weather template. -/
def get_weather (location : String) : String := weatherTemplate location

end WeatherTool

/-!
## The filesystem collaborator and the file tools

The filesystem is external state; it is modelled as a value describing what
each path resolves to.  `readLines` models Python's `open(...).readlines()`
(each line keeps its trailing newline); its error cases model
`UnicodeDecodeError` and `PermissionError`.
-/

/-- One directory entry as `Path.iterdir` yields it (the source treats every
entry as either a file, with a size, or a directory). -/
structure FSEntry where
  name : String
  isDir : Bool
  size : Nat
deriving DecidableEq, Repr

/-- The exceptions the file tools catch. -/
inductive FileErr where
  | permDenied
  | decodeErr
deriving DecidableEq, Repr

/-- The filesystem as the file tools observe it. -/
structure FS where
  pathExists : String → Bool
  isFile : String → Bool
  dirList : String → Except FileErr (List FSEntry)
  readLines : String → Except FileErr (List String)

/-- A filesystem on which every path is absent (used for runs that never
touch the filesystem). -/
def fsEmpty : FS where
  pathExists := fun _ => false
  isFile := fun _ => false
  dirList := fun _ => .error .permDenied
  readLines := fun _ => .error .permDenied

namespace FileOperationsTool

/-- `FileOperationsTool.list_files` (src/basic_agent/agent_with_tools.py,
lines 158-197): existence check, partition of the entries into decorated
file and directory lines, sorted sections, exception handlers. -/
def list_files (fs : FS) (directory : String) : String :=
  if !fs.pathExists directory then "❌ Directory not found: " ++ directory
  else
    match fs.dirList directory with
    | .error _ => "❌ Permission denied accessing: " ++ directory
    | .ok items =>
        let files := items.filterMap fun e =>
          if !e.isDir then some ("📄 " ++ e.name ++ " (" ++ toString e.size ++ " bytes)") else none
        let dirs := items.filterMap fun e =>
          if e.isDir then some ("📁 " ++ e.name ++ "/") else none
        let result := "📁 **Contents of " ++ directory ++ ":**\n\n"
        let result := result ++
          (if dirs ≠ [] then
            "**Directories:**\n" ++ String.join ((Py.sortStr dirs).map ("  " ++ · ++ "\n")) ++ "\n"
          else "")
        let result := result ++
          (if files ≠ [] then
            "**Files:**\n" ++ String.join ((Py.sortStr files).map ("  " ++ · ++ "\n"))
          else "")
        if dirs = [] ∧ files = [] then result ++ "*Directory is empty*" else result

/-- `FileOperationsTool.read_file` (src/basic_agent/agent_with_tools.py,
lines 199-226): existence and is-file checks, then the contents (truncated
to `maxLines` lines), with decode and permission errors converted to
messages.  There is no sandbox root and no path check of any kind: the
given path is handed to the filesystem as is. -/
def read_file (fs : FS) (filepath : String) (maxLines : Nat := 20) : String :=
  if !fs.pathExists filepath then "❌ File not found: " ++ filepath
  else if !fs.isFile filepath then "❌ Not a file: " ++ filepath
  else
    match fs.readLines filepath with
    | .error .decodeErr => "❌ Cannot read file (binary or unsupported encoding): " ++ filepath
    | .error .permDenied => "❌ Permission denied reading: " ++ filepath
    | .ok lines =>
        let content :=
          if lines.length ≤ maxLines then String.join lines
          else
            String.join (lines.take maxLines) ++
              "\n... (showing first " ++ toString maxLines ++ " lines of " ++
              toString lines.length ++ " total)"
        "📄 **Contents of " ++ filepath ++ ":**\n\n```\n" ++ content ++ "\n```"

end FileOperationsTool

/-!
## Conversation turns
-/

/-- The `role` field of a conversation-history entry. -/
inductive Role where
  | user
  | assistant
deriving DecidableEq, Repr

/-- One entry of `self.conversation_history`: `{"role": ..., "content": ...}`. -/
structure Turn where
  role : Role
  content : String
deriving DecidableEq, Repr

/-- The model configuration dictionary (the fields the embedded code reads;
values are kept as the strings the f-strings would print). -/
structure ModelConfig where
  provider : String
  model : String
  temperature : String
  maxTokens : String
deriving DecidableEq, Repr

/-- The default `model_config` of the agent constructors. -/
def defaultConfig : ModelConfig where
  provider := "AWS Bedrock"
  model := "us.anthropic.claude-3-7-sonnet-20250219-v1:0"
  temperature := "0.7"
  maxTokens := "1000"

/-!
## Intent classification and tool dispatch (`AgentWithTools._check_and_use_tools`)

src/basic_agent/agent_with_tools.py, lines 308-381: an `if/elif` chain over
case-insensitive substring triggers; the body of the matched branch extracts
parameters and invokes one tool.  `Intent` names the five branches,
`intentOf` is the branch-selection logic in isolation, and
`checkAndUseTools` is the whole method.

One control-flow point needs care: the module never imports `re` at top
level; `import re` happens inside the calculator branch's operator sub-branch
(line 317), which makes `re` a local name of the whole function.  When the
operator sub-branch runs, its `re.findall(r'[\d+\-*/().\s]+', ...)` result
is never empty (every operator character is itself in the character class;
`mathRuns_ne_nil` below), so that sub-branch always returns.  The `sqrt` and
`power` sub-branches are therefore only ever entered with `re` unbound, and
their `re.findall(...)` raises `UnboundLocalError`; `calcBranch` models this
with `.error reUnboundMsg`.
-/

/-- The five tool-dispatch branches of `_check_and_use_tools`, in
declaration order. -/
inductive Intent where
  | calculator
  | webSearch
  | weather
  | listFiles
  | readFile
deriving DecidableEq, Repr

/-- Python `any(word in s for word in ws)`. -/
def anyWordIn (ws : List String) (s : String) : Bool := ws.any (Py.hasSub s)

/-- Line 313: `any(word in user_lower for word in ['calculate', 'compute', 'math', 'solve'])`. -/
def calcTrigger (u : String) : Bool :=
  anyWordIn ["calculate", "compute", "math", "solve"] (Py.lower u)

/-- Line 338: the web-search triggers. -/
def searchTrigger (u : String) : Bool :=
  anyWordIn ["search", "find", "lookup", "google"] (Py.lower u)

/-- Line 346: the weather triggers. -/
def weatherTrigger (u : String) : Bool :=
  anyWordIn ["weather", "temperature", "forecast"] (Py.lower u)

/-- Line 359: the list-files triggers. -/
def listFilesTrigger (u : String) : Bool :=
  anyWordIn ["list files", "show files", "directory"] (Py.lower u)

/-- Line 367: the read-file triggers. -/
def readFileTrigger (u : String) : Bool :=
  anyWordIn ["read file", "show file", "open file"] (Py.lower u)

/-- Line 315: `any(op in user_input for op in ['+', '-', '*', '/', '(', ')'])`
(on the original, not lower-cased, input). -/
def hasOp (u : String) : Bool :=
  ['+', '-', '*', '/', '(', ')'].any (fun c => u.data.contains c)

/-- The character class of the regex `[\d+\-*/().\s]` (line 318). -/
def isMathChar (c : Char) : Bool :=
  c.isDigit || c = '+' || c = '-' || c = '*' || c = '/' || c = '(' || c = ')' ||
    c = '.' || Py.isSpaceChar c

/-- Helper for `mathRuns`: maximal runs of `isMathChar` characters
(accumulator holds the current run, reversed). -/
def runsAux : List Char → List Char → List String
  | [], [] => []
  | [], acc => [⟨acc.reverse⟩]
  | c :: cs, acc =>
      if isMathChar c then runsAux cs (c :: acc)
      else
        match acc with
        | [] => runsAux cs []
        | _ => ⟨acc.reverse⟩ :: runsAux cs []

/-- `re.findall(r'[\d+\-*/().\s]+', user_input)`: all maximal runs of
characters from the class, left to right. -/
def mathRuns (u : String) : List String := runsAux u.data []

/-- Python `max(matches, key=len)`: the first element of maximal length. -/
def maxByLen : List String → String
  | [] => ""
  | x :: xs => xs.foldl (fun best y => if best.data.length < y.data.length then y else best) x

/-- Line 321: `max(matches, key=len).strip()` — the expression handed to the
calculator. -/
def extractMathExpr (u : String) : String := Py.strip (maxByLen (mathRuns u))

/-- Lines 325, 330 sub-triggers of the calculator branch. -/
def sqrtTrigger (u : String) : Bool :=
  Py.hasSub (Py.lower u) "sqrt" || Py.hasSub (Py.lower u) "square root"

/-- Line 330: `'power' in user_lower or '^' in user_input`. -/
def powerTrigger (u : String) : Bool :=
  Py.hasSub (Py.lower u) "power" || Py.hasSub u "^"

/-- The message of the `UnboundLocalError` raised when the `sqrt`/`power`
sub-branches touch the unbound function-local `re` (see the section
comment; the exact wording varies across Python versions, the claims only
use that some message is thrown). -/
def reUnboundMsg : String := "local variable 're' referenced before assignment"

/-- Line 335: the calculator help message. -/
def calcHelp : String :=
  "🧮 I can help with calculations! Try:\n• Simple math: `2 + 2`, `10 * 5`, `(15 + 3) / 2`\n• Advanced: `sqrt of 16`, `2 power 3`\n• Functions: `sin`, `cos`, `log`"

/-- The calculator branch (lines 313-335).  `.error` models an uncaught
exception escaping `_check_and_use_tools`. -/
def calcBranch (u : String) : Except String String :=
  if hasOp u then .ok (CalculatorTool.calculate (extractMathExpr u))
  else if sqrtTrigger u then .error reUnboundMsg
  else if powerTrigger u then .error reUnboundMsg
  else .ok calcHelp

/-- The web-search branch (lines 338-343): strip the trigger words from the
original input, then search or ask for a query. -/
def searchBranch (u : String) : String :=
  let searchTerms :=
    Py.strip (Py.replace (Py.replace (Py.replace (Py.replace u "search for" "") "find" "") "lookup" "") "google" "")
  if searchTerms ≠ "" then WebSearchTool.search searchTerms
  else "🔍 What would you like me to search for?"

/-- Location extraction of the weather branch (lines 348-355): the first
word equal (case-insensitively) to `in`/`for`/`at` that has words after it;
the location is everything after it, else `"your location"`. -/
def weatherLoc : List String → String
  | [] => "your location"
  | w :: rest =>
      if (Py.lower w = "in" || Py.lower w = "for" || Py.lower w = "at") && !rest.isEmpty then
        String.intercalate " " rest
      else weatherLoc rest

/-- The weather branch (lines 346-356). -/
def weatherBranch (u : String) : String :=
  WeatherTool.get_weather (weatherLoc (Py.splitWs u))

/-- The list-files branch (lines 359-365): if the lower-cased input contains
`in`, the directory is the text after the last (case-sensitive) `in` of the
original input, stripped; else `"."`. -/
def listBranch (fs : FS) (u : String) : String :=
  let directory :=
    if Py.hasSub (Py.lower u) "in" then
      let parts := Py.splitOnStr u "in"
      if 1 < parts.length then Py.strip (parts.getLastD "") else "."
    else "."
  FileOperationsTool.list_files fs directory

/-- Filename extraction of the read-file branch (lines 369-375): the word
after the first of `file`/`read`/`show`/`open` that has a word after it. -/
def findReadTarget : List String → Option String
  | [] => none
  | w :: rest =>
      if Py.lower w = "file" || Py.lower w = "read" || Py.lower w = "show" || Py.lower w = "open" then
        match rest with
        | next :: _ => some next
        | [] => none
      else findReadTarget rest

/-- The read-file branch (lines 367-379). -/
def readBranch (fs : FS) (u : String) : String :=
  match findReadTarget (Py.splitWs u) with
  | some filename => FileOperationsTool.read_file fs filename
  | none => "📄 Please specify which file you'd like me to read."

/-- The branch-selection logic of `_check_and_use_tools` in isolation: the
first trigger (in declaration order) that fires names the intent. -/
def intentOf (u : String) : Option Intent :=
  if calcTrigger u then some .calculator
  else if searchTrigger u then some .webSearch
  else if weatherTrigger u then some .weather
  else if listFilesTrigger u then some .listFiles
  else if readFileTrigger u then some .readFile
  else none

/-- Whether intent `i`'s trigger-phrase set fires on `u`. -/
def triggered : Intent → String → Bool
  | .calculator, u => calcTrigger u
  | .webSearch, u => searchTrigger u
  | .weather, u => weatherTrigger u
  | .listFiles, u => listFilesTrigger u
  | .readFile, u => readFileTrigger u

/-- The five intents in the order their rules are declared in the source's
`if/elif` chain. -/
def declaredOrder : List Intent :=
  [.calculator, .webSearch, .weather, .listFiles, .readFile]

/-- `AgentWithTools._check_and_use_tools` (lines 308-381): `.ok (some r)`
when a tool branch produced response `r`, `.ok none` when no trigger fired
(the source's `return None`), `.error e` when the body raised. -/
def checkAndUseTools (fs : FS) (u : String) : Except String (Option String) :=
  if calcTrigger u then (calcBranch u).map some
  else if searchTrigger u then .ok (some (searchBranch u))
  else if weatherTrigger u then .ok (some (weatherBranch u))
  else if listFilesTrigger u then .ok (some (listBranch fs u))
  else if readFileTrigger u then .ok (some (readBranch fs u))
  else .ok none

/-- Tool dispatch as a function of a classified intent (the spec's
`dispatch`); `checkAndUseTools` factors through it (theorem
`checkAndUseTools_factors` below). -/
def dispatchIntent (fs : FS) (u : String) : Option Intent → Except String (Option String)
  | some .calculator => (calcBranch u).map some
  | some .webSearch => .ok (some (searchBranch u))
  | some .weather => .ok (some (weatherBranch u))
  | some .listFiles => .ok (some (listBranch fs u))
  | some .readFile => .ok (some (readBranch fs u))
  | none => .ok none

/-!
## AgentWithTools (src/basic_agent/agent_with_tools.py, lines 228-543)
-/

/-- The `AgentWithTools` instance state read by `chat`: the model config,
the optional Bedrock client (an external collaborator, modelled as a total
function of the utterance and the conversation history since
`_call_bedrock` catches every exception and returns a string), and the
conversation history. -/
structure AgentWithTools where
  modelConfig : ModelConfig
  bedrock : Option (String → List Turn → String)
  history : List Turn

namespace AgentWithTools

/-- `AgentWithTools._generate_conversational_response` (lines 434-519): the
keyword-template fallback used when Bedrock is unavailable. -/
def generateConversationalResponse (a : AgentWithTools) (u : String) : String :=
  let lowered := Py.lower u
  if anyWordIn ["hello", "hi", "hey"] lowered then awtHello
  else if anyWordIn ["what can you do", "capabilities", "help", "tools"] lowered then
    awtCapabilities
  else if anyWordIn ["goodbye", "bye", "thanks"] lowered then awtGoodbye
  else awtElse u a.modelConfig.provider a.modelConfig.model

/-- `AgentWithTools.chat` (lines 271-306).  The whole body runs under
`try/except Exception`; the only raising step is `_check_and_use_tools`
(the appends cannot raise, `_call_bedrock` and the template fallback are
total).  The user turn is appended first; on success the response turn is
appended and the response returned; on an exception `e` the error string is
returned with no assistant turn appended. -/
def chat (a : AgentWithTools) (fs : FS) (u : String) : AgentWithTools × String :=
  let h1 := a.history ++ [⟨.user, u⟩]
  match checkAndUseTools fs u with
  | .error e => ({ a with history := h1 }, "❌ Error processing request: " ++ e)
  | .ok toolResponse =>
      let response :=
        match toolResponse with
        | some t => t
        | none =>
            match a.bedrock with
            | some f =>
                if a.modelConfig.provider = "AWS Bedrock" then f u h1
                else a.generateConversationalResponse u
            | none => a.generateConversationalResponse u
      ({ a with history := h1 ++ [⟨.assistant, response⟩] }, response)

/-- `AgentWithTools.get_conversation_history` (lines 525-527): returns (a
copy of) the history; as a list value it equals the stored history.  The
copy semantics (`.copy()`) is captured by the heap model below. -/
def get_conversation_history (a : AgentWithTools) : List Turn := a.history

/-- `AgentWithTools.clear_history` (lines 529-532). -/
def clear_history (a : AgentWithTools) : AgentWithTools := { a with history := [] }

/-- The intent `chat` dispatches on, as a function of the whole instance
state and the utterance (the branch conditions of `_check_and_use_tools`
read only `user_input.lower()`, so the state argument is unused — which is
exactly the purity property the spec claims). -/
def selectedIntent (_a : AgentWithTools) (u : String) : Option Intent := intentOf u

/-- A fresh agent with no Bedrock client (as constructed in an environment
without AWS credentials) and an empty history. -/
def agent0 : AgentWithTools where
  modelConfig := defaultConfig
  bedrock := none
  history := []

end AgentWithTools

/-!
## SimpleAgent (src/basic_agent/simple_agent.py)
-/

/-- The `SimpleAgent` instance state read by `chat`. -/
structure SimpleAgent where
  modelConfig : ModelConfig
  bedrock : Option (String → List Turn → String)
  history : List Turn

namespace SimpleAgent

/-- `SimpleAgent._generate_mock_response` (lines 154-283): the
keyword-template fallback. -/
def generateMockResponse (a : SimpleAgent) (u : String) : String :=
  let lowered := Py.lower u
  if anyWordIn ["hello", "hi", "hey", "greetings"] lowered then saHello
  else if anyWordIn ["how are you", "how do you do", "what's up"] lowered then saHowAreYou
  else if anyWordIn ["what can you do", "capabilities", "help", "abilities"] lowered then
    saCapabilities
  else if anyWordIn ["goodbye", "bye", "see you", "farewell"] lowered then saGoodbye
  else if anyWordIn ["strands", "sdk", "framework"] lowered then saStrands
  else if anyWordIn ["weather", "temperature", "forecast"] lowered then saWeather
  else if anyWordIn ["calculate", "math", "compute", "number"] lowered then saCalculate
  else saElse u a.modelConfig.provider a.modelConfig.model a.modelConfig.temperature

/-- `SimpleAgent.chat` (lines 66-100): append the user turn, generate the
response (Bedrock when available, else the mock fallback; both total),
append the assistant turn, return the response.  No step of the body can
raise, so the `try/except` wrapper is never exercised. -/
def chat (a : SimpleAgent) (u : String) : SimpleAgent × String :=
  let h1 := a.history ++ [⟨.user, u⟩]
  let response :=
    match a.bedrock with
    | some f =>
        if a.modelConfig.provider = "AWS Bedrock" then f u h1
        else a.generateMockResponse u
    | none => a.generateMockResponse u
  ({ a with history := h1 ++ [⟨.assistant, response⟩] }, response)

/-- `SimpleAgent.get_conversation_history` (lines 285-287). -/
def get_conversation_history (a : SimpleAgent) : List Turn := a.history

/-- `SimpleAgent.clear_history` (lines 289-292). -/
def clear_history (a : SimpleAgent) : SimpleAgent := { a with history := [] }

end SimpleAgent

/-!
## MultiAgentSystem (src/advanced_agent/multi_agent_system.py)

The claims about this class concern its orchestration: which specialists
`_analyze_task` selects, and in which order `_execute_multi_agent_task`
runs them and concatenates their outputs.  The three specialist methods
(`_execute_math_agent`, `_execute_text_agent`, `_execute_format_agent`)
each wrap their body in `try/except` and return a string, so they are
modelled as opaque total functions (a `Specialists` value) — their internal
behaviour decides no claim, their call order and data flow do.
-/

/-- The dictionary `_analyze_task` returns (lines 269-301). -/
structure Analysis where
  needsMath : Bool
  needsText : Bool
  needsFormat : Bool
  complexity : String
  agentsRequired : List String
deriving DecidableEq, Repr

/-- One record of `self.task_history` (lines 361-366). -/
structure TaskRec where
  task : String
  analysis : Analysis
  resultsCount : Nat
  timestamp : String
deriving DecidableEq, Repr

/-- The three specialist executors as total functions (see the section
comment); `format` also receives the accumulated earlier results, as
`_execute_format_agent(user_input, results)` does. -/
structure Specialists where
  math : String → String
  text : String → String
  format : String → List String → String

/-- The `MultiAgentSystem` instance state read by `chat`. -/
structure MultiAgentSystem where
  history : List Turn
  taskHistory : List TaskRec

namespace MultiAgentSystem

/-- Line 278 keyword list. -/
def mathKeywords : List String :=
  ["calculate", "compute", "math", "equation", "formula", "sqrt", "square", "root",
    "power", "+", "-", "*", "/", "sum", "average"]

/-- Line 284 keyword list. -/
def textKeywords : List String :=
  ["analyze", "sentiment", "text", "content", "words", "readability", "writing",
    "review", "feedback"]

/-- Line 290 keyword list. -/
def formatKeywords : List String :=
  ["format", "json", "table", "list", "structure", "organize", "present"]

/-- `MultiAgentSystem._analyze_task` (lines 265-301): keyword scan over the
lower-cased input, agent list in fixed order, complexity from the count. -/
def analyzeTask (u : String) : Analysis :=
  let lowered := Py.lower u
  let needsMath := mathKeywords.any (Py.hasSub lowered)
  let needsText := textKeywords.any (Py.hasSub lowered)
  let needsFormat := formatKeywords.any (Py.hasSub lowered)
  let agents :=
    (if needsMath then ["Math Specialist"] else []) ++
    (if needsText then ["Text Analysis Specialist"] else []) ++
    (if needsFormat then ["Data Formatting Specialist"] else [])
  { needsMath := needsMath
    needsText := needsText
    needsFormat := needsFormat
    complexity :=
      if 1 < agents.length then "complex"
      else if agents.length = 1 then "moderate"
      else "simple"
    agentsRequired := agents }

/-- The header block of the response (lines 308-317). -/
def masHeader (u : String) (an : Analysis) (ts : String) : String :=
  masHeaderT u (Py.title an.complexity) (toString an.agentsRequired.length)
    (String.intercalate ", " an.agentsRequired) ts

/-- The math-specialist section (lines 323-326). -/
def masMathBlock (r : String) : String := masMathBlockT r

/-- The text-analysis section (lines 332-335). -/
def masTextBlock (r : String) : String := masTextBlockT r

/-- The formatting section (lines 340-343). -/
def masFormatBlock (r : String) : String := masFormatBlockT r

/-- The general-coordination fallback (lines 491-509). -/
def masGeneralCoordination (u : String) : String := masGeneralCoordinationT u

/-- The task-summary trailer (lines 350-358). -/
def masSummary (an : Analysis) (nResults : Nat) : String :=
  masSummaryT (toString an.agentsRequired.length) (Py.title an.complexity) (toString nResults)

/-- `MultiAgentSystem._execute_multi_agent_task` (lines 303-368): header,
then — in this fixed source order, never in completion order — the math
section, the text section, and the formatting section (whose specialist
receives the accumulated earlier results), then the general-coordination
fallback when no agent was required, then the summary; alongside, the
`task_history` record. -/
def executeMultiAgentTask (sp : Specialists) (ts u : String) (an : Analysis) :
    String × TaskRec :=
  let results0 : List String := []
  let response0 := masHeader u an ts
  let (results1, response1) :=
    if an.needsMath then
      (results0 ++ [sp.math u], response0 ++ masMathBlock (sp.math u))
    else (results0, response0)
  let (results2, response2) :=
    if an.needsText then
      (results1 ++ [sp.text u], response1 ++ masTextBlock (sp.text u))
    else (results1, response1)
  let response3 :=
    if an.needsFormat then response2 ++ masFormatBlock (sp.format u results2)
    else response2
  let response4 :=
    if an.agentsRequired.isEmpty then response3 ++ masGeneralCoordination u
    else response3
  (response4 ++ masSummary an results2.length,
    { task := u, analysis := an, resultsCount := results2.length, timestamp := ts })

/-- `MultiAgentSystem.chat` (lines 237-263): append the user turn, analyze,
execute, log the task record, append the assistant turn.  The body is total
(each specialist catches its own exceptions), so the `try/except` wrapper is
never exercised.  The timestamp is external input. -/
def chat (s : MultiAgentSystem) (sp : Specialists) (ts u : String) :
    MultiAgentSystem × String :=
  let h1 := s.history ++ [⟨.user, u⟩]
  let an := analyzeTask u
  let (response, rec) := executeMultiAgentTask sp ts u an
  ({ history := h1 ++ [⟨.assistant, response⟩],
     taskHistory := s.taskHistory ++ [rec] }, response)

/-- The task analysis `chat` acts on, as a function of the whole instance
state and the utterance (`_analyze_task` reads only `user_input`, so the
state argument is unused — the purity property the spec claims). -/
def taskAnalysisOf (_s : MultiAgentSystem) (u : String) : Analysis := analyzeTask u

end MultiAgentSystem

/-!
## A reference heap for the list-copy semantics

`get_conversation_history` returns `self.conversation_history.copy()`.
Whether the caller can corrupt the agent by mutating the returned list is a
question about object identity, so this small heap of list cells models it:
the agent's history lives in one cell, `copy()` allocates a fresh cell with
the same contents, and mutation writes a cell in place.
-/

/-- A heap of `List Turn` cells; `next` is the next fresh address. -/
structure Heap where
  next : Nat
  mem : Nat → List Turn

namespace Heap

/-- Allocate a fresh cell holding `v` (models building a new Python list). -/
def alloc (h : Heap) (v : List Turn) : Heap × Nat :=
  ({ next := h.next + 1, mem := fun i => if i = h.next then v else h.mem i }, h.next)

/-- Overwrite the cell at `r` (models in-place mutation of a Python list). -/
def write (h : Heap) (r : Nat) (v : List Turn) : Heap :=
  { h with mem := fun i => if i = r then v else h.mem i }

/-- Read the cell at `r`. -/
def read (h : Heap) (r : Nat) : List Turn := h.mem r

end Heap

/-- `get_conversation_history` against the heap: `self.conversation_history
.copy()` allocates a fresh list cell with the stored contents and returns
its address (both `SimpleAgent.get_conversation_history`, lines 285-287,
and `AgentWithTools.get_conversation_history`, lines 525-527, are this same
one-line body). -/
def getConversationHistoryH (h : Heap) (r : Nat) : Heap × Nat := h.alloc (h.read r)

/-- `AgentWithTools.chat` against the heap: the agent's history cell is
read, the pure `chat` runs, and the new history is written back to the same
cell. -/
def chatH (fs : FS) (cfg : ModelConfig) (bed : Option (String → List Turn → String))
    (h : Heap) (r : Nat) (u : String) : Heap × String :=
  let a : AgentWithTools := ⟨cfg, bed, h.read r⟩
  let (a', response) := a.chat fs u
  (h.write r a'.history, response)

/-- A concrete filesystem containing (only) a file at the `..`-escaping path
`../../etc/passwd`, for exercising the file tool on an escaping path. -/
def passwdFS : FS where
  pathExists := fun p => p = "../../etc/passwd"
  isFile := fun p => p = "../../etc/passwd"
  dirList := fun _ => .error .permDenied
  readLines := fun p =>
    if p = "../../etc/passwd" then .ok ["root:x:0:0:root:/root:/bin/bash\n"]
    else .error .permDenied

/-- Concrete demo specialists for witnessing the multi-agent ordering
theorem. -/
def spDemo : Specialists where
  math := fun _ => "M"
  text := fun _ => "T"
  format := fun _ rs => String.intercalate ";" rs

/-- A concrete utterance whose analysis needs all three specialists. -/
def demoTask : String := "calculate 2 + 2, analyze the text and format as json"

/-- A one-cell heap whose cell 0 holds an empty history. -/
def heap1 : Heap where
  next := 1
  mem := fun _ => []

/-!
## Helper lemmas
-/

/-- Helper for `hasOp_mathRuns_ne_nil`: `runsAux` yields at least one run as
soon as a class character is still ahead or a run is open. -/
theorem runsAux_ne_nil :
    ∀ (cs : List Char) (acc : List Char),
      cs.any isMathChar = true ∨ acc ≠ [] → runsAux cs acc ≠ [] := by
  intro cs
  induction cs with
  | nil =>
      intro acc hacc
      match acc, hacc with
      | [], Or.inl h => simp at h
      | a :: as, _ => simp [runsAux]
  | cons c cs ih =>
      intro acc hacc
      by_cases hc : isMathChar c = true
      · simpa [runsAux, hc] using ih (c :: acc) (Or.inr (by simp))
      · have hany : cs.any isMathChar = true ∨ acc ≠ [] := by
          rcases hacc with h | h
          · simp only [List.any_cons, Bool.or_eq_true] at h
            rcases h with h | h
            · exact absurd h hc
            · exact Or.inl h
          · exact Or.inr h
        match acc, hany with
        | [], hany => simpa [runsAux, hc] using ih [] (by rcases hany with h | h; exact Or.inl h; simp at h)
        | a :: as, _ => simp [runsAux, hc]

/-- Justification for `calcBranch`: when the operator test of line 315
holds, `re.findall(r'[\d+\-*/().\s]+', user_input)` is non-empty (the
operator character itself belongs to the class), so the source's
`if matches:` always takes the `return` path and the `sqrt`/`power`
sub-checks are reached only with `re` unbound. -/
theorem hasOp_mathRuns_ne_nil (u : String) (h : hasOp u = true) : mathRuns u ≠ [] := by
  apply runsAux_ne_nil u.data []
  left
  simp only [hasOp, List.any_eq_true] at h
  obtain ⟨c, hc, hmem⟩ := h
  replace hmem : c ∈ u.data := by simpa using hmem
  rw [List.any_eq_true]
  refine ⟨c, hmem, ?_⟩
  fin_cases hc <;> decide

/-- The tool-dispatch method factors through the pure classifier: the
`if/elif` chain of `_check_and_use_tools` equals dispatch on `intentOf`. -/
theorem checkAndUseTools_factors (fs : FS) (u : String) :
    checkAndUseTools fs u = dispatchIntent fs u (intentOf u) := by
  unfold checkAndUseTools intentOf dispatchIntent
  split_ifs <;> rfl

/-!
## The claims
-/

/-- C1: for every input string, the agent facade's `chat()` returns a string
and never lets an exception propagate: the only step of
`AgentWithTools.chat`'s body that can raise is `_check_and_use_tools`, and
when it raises `e` the `except` handler returns the error-describing string
instead of propagating; `SimpleAgent.chat`'s body is total and always
completes normally (user turn, assistant turn, returned response). -/
theorem chat_never_raises (fs : FS) (a : AgentWithTools) (s : SimpleAgent) (u : String) :
    ((∃ r, checkAndUseTools fs u = Except.ok r) ∨
      (∃ e, checkAndUseTools fs u = Except.error e ∧
        (a.chat fs u).2 = "❌ Error processing request: " ++ e)) ∧
    (s.chat u).1.history =
      s.history ++ [⟨Role.user, u⟩, ⟨Role.assistant, (s.chat u).2⟩] := by
  constructor
  · cases h : checkAndUseTools fs u with
    | ok r => exact Or.inl ⟨r, rfl⟩
    | error e => exact Or.inr ⟨e, rfl, by simp [AgentWithTools.chat, h]⟩
  · simp [SimpleAgent.chat]

/-- C2: the calculator tool returns the ToolResult string with value `14`
on `"2 + 3 * 4"`, a division-by-zero failure ToolResult on `"1/0"`, and for
every expression string returns one of the four ToolResult shapes (guard
rejection, success, division by zero, generic calculation error) — it is a
total function, never raising to its caller. -/
theorem calculator_dispatch_spec :
    CalculatorTool.calculate "2 + 3 * 4" = "🧮 **Calculation Result:**\n`2 + 3 * 4 = 14`" ∧
    Py.hasSub (CalculatorTool.calculate "2 + 3 * 4") "14" = true ∧
    CalculatorTool.calculate "1/0" = "❌ Error: Division by zero" ∧
    ∀ expression : String,
      CalculatorTool.calculate expression =
          "❌ Invalid characters in expression. Only numbers and basic operators (+, -, *, /, parentheses) are allowed." ∨
      (∃ v, pyEval expression = .ok v ∧
        CalculatorTool.calculate expression =
          "🧮 **Calculation Result:**\n`" ++ expression ++ " = " ++ renderVal v ++ "`") ∨
      CalculatorTool.calculate expression = "❌ Error: Division by zero" ∨
      (∃ m, CalculatorTool.calculate expression = "❌ Calculation error: " ++ m) := by
  refine ⟨by decide, by decide, by decide, ?_⟩
  intro expression
  unfold CalculatorTool.calculate
  split
  · cases h : pyEval expression with
    | ok v => exact Or.inr (Or.inl ⟨v, rfl, rfl⟩)
    | error pe =>
        cases pe with
        | zeroDiv => exact Or.inr (Or.inr (Or.inl rfl))
        | other m => exact Or.inr (Or.inr (Or.inr ⟨m, rfl⟩))
  · exact Or.inl rfl

/-- C3 counterexample: not every `chat(u)` call appends two turns.  On the
input `"calculate sqrt of 16"` the calculator branch raises (unbound local
`re`, see `calcBranch`), the handler returns an error string, and the call
appends only the user turn: the history of a fresh agent has length 1, not
2, afterwards. -/
theorem chat_two_turns_counterexample :
    (AgentWithTools.agent0.chat fsEmpty "calculate sqrt of 16").1.history =
      [⟨Role.user, "calculate sqrt of 16"⟩] ∧
    (AgentWithTools.agent0.chat fsEmpty "calculate sqrt of 16").1.history.length ≠ 2 := by
  constructor
  · rfl
  · decide

/-- C3 (amended): `clear_history()` followed by `get_conversation_history()`
returns the empty sequence; and every `chat(u)` call whose dispatch does not
raise internally appends exactly two turns — first a user turn with content
`u`, then an assistant turn with content the returned response.  (A call
whose dispatch raises appends only the user turn; see the counterexample
and C10.) -/
theorem chat_two_turns (fs : FS) (a : AgentWithTools) (u : String) (r : Option String)
    (h : checkAndUseTools fs u = Except.ok r) :
    (AgentWithTools.clear_history a).get_conversation_history = [] ∧
    (a.chat fs u).1.history =
      a.history ++ [⟨Role.user, u⟩, ⟨Role.assistant, (a.chat fs u).2⟩] := by
  refine ⟨rfl, ?_⟩
  simp [AgentWithTools.chat, h]

/-- Witness for C3's amended theorem at the concrete input `"hello"` (whose
dispatch returns `.ok none`). -/
theorem chat_two_turns_witness :
    checkAndUseTools fsEmpty "hello" = Except.ok none ∧
    ((AgentWithTools.clear_history AgentWithTools.agent0).get_conversation_history = [] ∧
      (AgentWithTools.agent0.chat fsEmpty "hello").1.history =
        AgentWithTools.agent0.history ++
          [⟨Role.user, "hello"⟩, ⟨Role.assistant, (AgentWithTools.agent0.chat fsEmpty "hello").2⟩]) :=
  ⟨rfl, chat_two_turns fsEmpty AgentWithTools.agent0 "hello" none rfl⟩

/-- C4: intent classification is a pure, deterministic function of the
utterance alone: the intent `chat` dispatches on is the same for any two
instance states, is unchanged by a prior `chat` call on the same agent, and
the whole dispatch factors through the state-free classifier `intentOf`;
likewise `MultiAgentSystem`'s task analysis is the same for any two states
and unchanged by prior calls. -/
theorem intent_classification_pure (fs : FS) (a₁ a₂ : AgentWithTools)
    (m₁ m₂ : MultiAgentSystem) (sp : Specialists) (ts u : String) :
    a₁.selectedIntent u = a₂.selectedIntent u ∧
    ((a₁.chat fs u).1).selectedIntent u = a₁.selectedIntent u ∧
    checkAndUseTools fs u = dispatchIntent fs u (a₁.selectedIntent u) ∧
    m₁.taskAnalysisOf u = m₂.taskAnalysisOf u ∧
    ((m₁.chat sp ts u).1).taskAnalysisOf u = m₁.taskAnalysisOf u :=
  ⟨rfl, rfl, checkAndUseTools_factors fs u, rfl, rfl⟩

/-- C5: on an utterance containing trigger phrases of several intents, the
classifier returns the intent whose rule is declared first: `intentOf`
equals `List.find?` over the declaration order (so ties go to declaration
order, never to the longest or most specific match); in particular an
utterance triggering both the calculator and the web search is dispatched
to the calculator. -/
theorem classify_first_declared (u : String) :
    intentOf u = declaredOrder.find? (fun i => triggered i u) ∧
    (triggered Intent.calculator u = true → triggered Intent.webSearch u = true →
      intentOf u = some Intent.calculator) := by
  constructor
  · unfold intentOf declaredOrder
    cases h1 : calcTrigger u <;> cases h2 : searchTrigger u <;>
      cases h3 : weatherTrigger u <;> cases h4 : listFilesTrigger u <;>
      cases h5 : readFileTrigger u <;>
      simp [List.find?, triggered, h1, h2, h3, h4, h5]
  · intro h _
    unfold intentOf
    simp only [triggered] at h
    simp [h]

/-- Witness for C5 at a concrete utterance containing both a calculator
trigger (`calculate`) and a web-search trigger (`find`). -/
theorem classify_first_declared_witness :
    triggered Intent.calculator "calculate this and find that" = true ∧
    triggered Intent.webSearch "calculate this and find that" = true ∧
    intentOf "calculate this and find that" = some Intent.calculator :=
  ⟨by decide, by decide,
    (classify_first_declared "calculate this and find that").2 (by decide) (by decide)⟩

/-- C6 (code divergence record): the ReadFile tool has no sandbox root —
nothing in either `read_file` implementation checks the path — so on a
filesystem where the `..`-escaping path `../../etc/passwd` exists it
returns the file's contents, with no `SecurityError` flag anywhere in the
result. -/
theorem read_file_no_sandbox :
    FileOperationsTool.read_file passwdFS "../../etc/passwd" =
      "📄 **Contents of ../../etc/passwd:**\n\n```\nroot:x:0:0:root:/root:/bin/bash\n\n```" ∧
    Py.hasSub (FileOperationsTool.read_file passwdFS "../../etc/passwd") "SecurityError" = false ∧
    Py.hasSub (FileOperationsTool.read_file passwdFS "../../etc/passwd") "root:x:0:0:root" = true := by
  refine ⟨?_, ?_, ?_⟩ <;> decide

/-- C7: end-to-end, on the utterance `"Calculate 15 * 8"` `chat` classifies
the calculator intent, extracts the arithmetic expression `"15 * 8"` (the
longest run of digits, operators, parentheses, dots and spaces, stripped),
evaluates it to 120, and returns a string containing `"120"`. -/
theorem calculate_15_times_8_end_to_end :
    intentOf "Calculate 15 * 8" = some Intent.calculator ∧
    extractMathExpr "Calculate 15 * 8" = "15 * 8" ∧
    CalculatorTool.calculate "15 * 8" = "🧮 **Calculation Result:**\n`15 * 8 = 120`" ∧
    (AgentWithTools.agent0.chat fsEmpty "Calculate 15 * 8").2 =
      "🧮 **Calculation Result:**\n`15 * 8 = 120`" ∧
    Py.hasSub (AgentWithTools.agent0.chat fsEmpty "Calculate 15 * 8").2 "120" = true := by
  refine ⟨?_, ?_, ?_, ?_, ?_⟩ <;> decide

/-- C8: when one utterance triggers several specialists, the outputs are
concatenated in the fixed source order — math results first, then text
analysis, then formatting — never in completion order, and the formatting
specialist receives the earlier specialists' results (math's, then text's)
as its input; this holds for every choice of specialist behaviours. -/
theorem multi_agent_fixed_order (sp : Specialists) (ts u : String)
    (hm : (MultiAgentSystem.analyzeTask u).needsMath = true)
    (ht : (MultiAgentSystem.analyzeTask u).needsText = true)
    (hf : (MultiAgentSystem.analyzeTask u).needsFormat = true) :
    (MultiAgentSystem.executeMultiAgentTask sp ts u (MultiAgentSystem.analyzeTask u)).1 =
      MultiAgentSystem.masHeader u (MultiAgentSystem.analyzeTask u) ts ++
      MultiAgentSystem.masMathBlock (sp.math u) ++
      MultiAgentSystem.masTextBlock (sp.text u) ++
      MultiAgentSystem.masFormatBlock (sp.format u [sp.math u, sp.text u]) ++
      MultiAgentSystem.masSummary (MultiAgentSystem.analyzeTask u) 2 := by
  have hne : (MultiAgentSystem.analyzeTask u).agentsRequired ≠ [] := by
    simp only [MultiAgentSystem.analyzeTask] at hm ⊢
    simp only [hm]
    simp
  simp only [MultiAgentSystem.executeMultiAgentTask, hm, ht, hf, if_true]
  simp [hne, String.append_assoc]

/-- Witness for C8 at a concrete utterance needing all three specialists
and concrete specialist behaviours. -/
theorem multi_agent_fixed_order_witness :
    ((MultiAgentSystem.analyzeTask demoTask).needsMath = true ∧
      (MultiAgentSystem.analyzeTask demoTask).needsText = true ∧
      (MultiAgentSystem.analyzeTask demoTask).needsFormat = true) ∧
    (MultiAgentSystem.executeMultiAgentTask spDemo "2025-01-01 00:00:00" demoTask
        (MultiAgentSystem.analyzeTask demoTask)).1 =
      MultiAgentSystem.masHeader demoTask (MultiAgentSystem.analyzeTask demoTask)
          "2025-01-01 00:00:00" ++
      MultiAgentSystem.masMathBlock (spDemo.math demoTask) ++
      MultiAgentSystem.masTextBlock (spDemo.text demoTask) ++
      MultiAgentSystem.masFormatBlock
        (spDemo.format demoTask [spDemo.math demoTask, spDemo.text demoTask]) ++
      MultiAgentSystem.masSummary (MultiAgentSystem.analyzeTask demoTask) 2 :=
  ⟨⟨by decide, by decide, by decide⟩,
    multi_agent_fixed_order spDemo "2025-01-01 00:00:00" demoTask
      (by decide) (by decide) (by decide)⟩

/-- C9: `get_conversation_history` returns a defensive copy: against the
reference heap, the returned list is a fresh cell (distinct from the
agent's own), holds the same contents, and overwriting it leaves the
agent's stored history unchanged and every subsequent `chat` call — its
response and the history it stores — exactly as if the returned list had
not been touched. -/
theorem history_defensive_copy (fs : FS) (cfg : ModelConfig)
    (bed : Option (String → List Turn → String)) (h : Heap) (r : Nat) (v : List Turn)
    (u : String) (hr : r < h.next) :
    (getConversationHistoryH h r).2 ≠ r ∧
    (getConversationHistoryH h r).1.read (getConversationHistoryH h r).2 = h.read r ∧
    ((getConversationHistoryH h r).1.write (getConversationHistoryH h r).2 v).read r =
      h.read r ∧
    (chatH fs cfg bed ((getConversationHistoryH h r).1.write (getConversationHistoryH h r).2 v)
        r u).2 = (chatH fs cfg bed h r u).2 ∧
    (chatH fs cfg bed ((getConversationHistoryH h r).1.write (getConversationHistoryH h r).2 v)
        r u).1.read r = (chatH fs cfg bed h r u).1.read r := by
  have hne : r ≠ h.next := Nat.ne_of_lt hr
  refine ⟨fun hc => hne hc.symm, ?_, ?_, ?_, ?_⟩
  · simp [getConversationHistoryH, Heap.alloc, Heap.read]
  · simp [getConversationHistoryH, Heap.alloc, Heap.read, Heap.write, hne]
  · simp [getConversationHistoryH, Heap.alloc, Heap.read, Heap.write, chatH, hne]
  · simp [getConversationHistoryH, Heap.alloc, Heap.read, Heap.write, chatH, hne]

/-- Witness for C9 on a concrete one-cell heap (the agent's history in cell
0), a concrete mutation and a subsequent `chat "hello"` call. -/
theorem history_defensive_copy_witness :
    (0 : Nat) < heap1.next ∧
    ((getConversationHistoryH heap1 0).2 ≠ 0 ∧
      (getConversationHistoryH heap1 0).1.read (getConversationHistoryH heap1 0).2 =
        heap1.read 0 ∧
      ((getConversationHistoryH heap1 0).1.write (getConversationHistoryH heap1 0).2
          [⟨Role.user, "x"⟩]).read 0 = heap1.read 0 ∧
      (chatH fsEmpty defaultConfig none
          ((getConversationHistoryH heap1 0).1.write (getConversationHistoryH heap1 0).2
            [⟨Role.user, "x"⟩]) 0 "hello").2 =
        (chatH fsEmpty defaultConfig none heap1 0 "hello").2 ∧
      (chatH fsEmpty defaultConfig none
          ((getConversationHistoryH heap1 0).1.write (getConversationHistoryH heap1 0).2
            [⟨Role.user, "x"⟩]) 0 "hello").1.read 0 =
        (chatH fsEmpty defaultConfig none heap1 0 "hello").1.read 0) :=
  ⟨by decide,
    history_defensive_copy fsEmpty defaultConfig none heap1 0 [⟨Role.user, "x"⟩] "hello"
      (by decide)⟩

/-- C10: `chat()` appends the user turn before classification and dispatch
run; when dispatch raises internally, `chat` still returns an
error-describing string but appends no assistant turn, so the history ends
with an unmatched user turn and its length becomes odd (when it was even
before the call). -/
theorem chat_error_unmatched_user_turn (fs : FS) (a : AgentWithTools) (u e : String)
    (h : checkAndUseTools fs u = Except.error e) :
    (a.chat fs u).2 = "❌ Error processing request: " ++ e ∧
    (a.chat fs u).1.history = a.history ++ [⟨Role.user, u⟩] ∧
    (a.history.length % 2 = 0 → (a.chat fs u).1.history.length % 2 = 1) := by
  refine ⟨by simp [AgentWithTools.chat, h], by simp [AgentWithTools.chat, h], ?_⟩
  intro heven
  simp [AgentWithTools.chat, h]
  omega

/-- Witness for C10 at the concrete input `"calculate sqrt of 16"`, whose
dispatch raises the unbound-local-`re` error (see `calcBranch`). -/
theorem chat_error_unmatched_user_turn_witness :
    checkAndUseTools fsEmpty "calculate sqrt of 16" = Except.error reUnboundMsg ∧
    ((AgentWithTools.agent0.chat fsEmpty "calculate sqrt of 16").2 =
        "❌ Error processing request: " ++ reUnboundMsg ∧
      (AgentWithTools.agent0.chat fsEmpty "calculate sqrt of 16").1.history =
        AgentWithTools.agent0.history ++ [⟨Role.user, "calculate sqrt of 16"⟩] ∧
      (AgentWithTools.agent0.history.length % 2 = 0 →
        (AgentWithTools.agent0.chat fsEmpty "calculate sqrt of 16").1.history.length % 2 = 1)) :=
  ⟨rfl,
    chat_error_unmatched_user_turn fsEmpty AgentWithTools.agent0 "calculate sqrt of 16"
      reUnboundMsg rfl⟩
